import Mathlib

/-!
Shallow embedding of `freefall/base.py` (class `BaseDownloader` and its
exception hierarchy).  Python `datetime` values are modelled as microseconds
since an epoch together with a flag saying whether `tzinfo` is set; the
current time `utcnow()` (from the repository's `utils` module) is passed in
as an explicit parameter everywhere the code calls it.  The status record is
a Python dict with keys `processing`, `finished`, `failed`, `waiting_until`;
absent boolean keys read as false through `.get`, and an absent
`waiting_until` is `none`.  The status store is a single mutable record per
request, accessed through exclusive sessions; the embedding passes it
explicitly, so the reload in the resolution phase returns the record saved
by the admission phase (sequential semantics, no concurrent writers).
-/

namespace Freefall

/-- Model of a Python `datetime`: microseconds since the epoch plus whether
`tzinfo` is present (`tz = false` means a naive timestamp). -/
structure Datetime where
  micro : Int
  tz : Bool
deriving DecidableEq, Repr

/-- `d.replace(microsecond=0)`: drop the sub-second part (Python's
`microsecond` field is always in `[0, 10^6)`, so this floors to the second;
Python `%` and `Int.emod` agree on a positive modulus). -/
def Datetime.truncMicrosecond (d : Datetime) : Datetime :=
  { d with micro := d.micro - d.micro % 1000000 }

/-- `d + timedelta(seconds=s)`. -/
def Datetime.addSeconds (d : Datetime) (s : Int) : Datetime :=
  { d with micro := d.micro + s * 1000000 }

/-- Comparison of two (aware) datetimes, `a < b`. -/
def Datetime.lt (a b : Datetime) : Bool :=
  decide (a.micro < b.micro)

/-- Persisted status record of one request. -/
structure Status where
  processing : Bool
  finished : Bool
  failed : Bool
  waiting_until : Option Datetime
deriving DecidableEq, Repr

/-- A freshly created status: all flags false, no `waiting_until`
(absent keys read as falsy through `dict.get`). -/
def Status.empty : Status :=
  { processing := false, finished := false, failed := false, waiting_until := none }

/-- The exceptions `_process_request` can raise, by kind.  `otherException`
stands for an arbitrary unrecognized exception raised by `_force_download`
(modelled concretely as a `ValueError`, an `Exception` subclass that is none
of the recognized kinds). -/
inductive ProcExc where
  | alreadyProcessingError
  | alreadyFinishedError
  | temporaryResourceError (waiting_until : Datetime)
  | resourceError
  | otherException
deriving DecidableEq, Repr

/-- Outcome of the abstract Work Executor `_force_download(request)`:
normal return, or one of the exception kinds it may raise.  The deadlines
carried by `PartiallyCompleted` / `TemporaryResourceError` were validated at
construction time (see `mkTemporaryResourceError`). -/
inductive ExecResult where
  | success
  | partiallyCompleted (waiting_until : Datetime)
  | temporaryResourceError (waiting_until : Datetime)
  | resourceError
  | otherException
deriving DecidableEq, Repr

deriving instance DecidableEq for Except

/-- Result of one `_process_request` run: the outcome (normal return or
raised exception), the final content of the status store, the list of
records passed to `_save_status` in order, and whether `_force_download`
was invoked. -/
structure ProcResult where
  outcome : Except ProcExc Unit
  store : Status
  saves : List Status
  invoked : Bool
deriving DecidableEq, Repr

/-- The admission-phase checks of `_process_request` (lines 84-93): returns
the exception raised before the executor is invoked, or `none` when the
request is admitted.  `now` is the value of `utcnow()` at line 89; the code
compares `status.get('waiting_until', now)` against
`utcnow().replace(microsecond=0) + timedelta(seconds=1)`. -/
def admission (status : Status) (now : Datetime) : Option ProcExc :=
  if status.processing then some .alreadyProcessingError
  else if status.finished then some .alreadyFinishedError
  else
    match status.waiting_until with
    | some w =>
        if Datetime.lt (now.truncMicrosecond.addSeconds 1) w then
          some (.temporaryResourceError w)
        else none
    | none => none

/-- The `try/except/else/finally` ladder of the resolution phase
(lines 106-122), applied to the reloaded status: how each executor outcome
updates the record, with `processing` unconditionally cleared in the
`finally` clause, paired with the exception re-raised (if any).
`PartiallyCompleted` is absorbed (not re-raised); the plain `return` path
sets `finished`; the `TemporaryResourceError` arm is tried before the
general `ResourceError` arm, as in the source. -/
def resolve (reloaded : Status) (exec : ExecResult) : Except ProcExc Unit × Status :=
  match exec with
  | .success =>
      (.ok (), { reloaded with finished := true, processing := false })
  | .partiallyCompleted t =>
      (.ok (), { reloaded with waiting_until := some t, processing := false })
  | .temporaryResourceError t =>
      (.error (.temporaryResourceError t),
       { reloaded with waiting_until := some t, failed := true, processing := false })
  | .resourceError =>
      (.error .resourceError,
       { reloaded with finished := true, failed := true, processing := false })
  | .otherException =>
      (.error .otherException, { reloaded with failed := true, processing := false })

/-- Lines 95-125 of `_process_request` once admission has succeeded: mark
the claim (`processing = true`, `finished = false`, `failed = false`), save
it, invoke the executor, reload the status (which returns the claimed
record, there being no other writer), resolve, and save the final record. -/
def execute (status : Status) (exec : ExecResult) : ProcResult :=
  let claimed := { status with processing := true, finished := false, failed := false }
  let r := resolve claimed exec
  { outcome := r.1, store := r.2, saves := [claimed, r.2], invoked := true }

/-- `BaseDownloader._process_request` for one request, given the loaded
status, the current time and the executor's behaviour. -/
def process_request (status : Status) (now : Datetime) (exec : ExecResult) : ProcResult :=
  match admission status now with
  | some e => { outcome := .error e, store := status, saves := [], invoked := false }
  | none => execute status exec

/-- Python exception classes relevant to `except` clauses in `download`;
`valueError` stands for the class of the modelled unrecognized exception. -/
inductive ExcClass where
  | baseException
  | exception
  | resourceError
  | temporaryResourceError
  | alreadyProcessingError
  | alreadyFinishedError
  | valueError
deriving DecidableEq, Repr

/-- `isinstance` on the modelled hierarchy: every raised kind derives
`Exception` (hence `BaseException`); `TemporaryResourceError` derives
`ResourceError`; the unrecognized exception is a `ValueError`. -/
def isinstance (e : ProcExc) (c : ExcClass) : Bool :=
  match c with
  | .baseException => true
  | .exception => true
  | .resourceError =>
      match e with
      | .temporaryResourceError _ => true
      | .resourceError => true
      | _ => false
  | .temporaryResourceError =>
      match e with
      | .temporaryResourceError _ => true
      | _ => false
  | .alreadyProcessingError =>
      match e with
      | .alreadyProcessingError => true
      | _ => false
  | .alreadyFinishedError =>
      match e with
      | .alreadyFinishedError => true
      | _ => false
  | .valueError =>
      match e with
      | .otherException => true
      | _ => false

/-- Log records emitted by `download` for one request, by level and site. -/
inductive LogEvent where
  | infoFinishedSuccessfully
  | infoAlreadyFinished
  | infoAlreadyDownloading
  | infoTemporaryUnavailable
  | warningResourceError
  | debugResourceErrorDetail
  | errorUnexpected
deriving DecidableEq, Repr

/-- The per-request dispatch of `download` (lines 52-78) applied to the
outcome of `_process_request`: the inner `try` logs resource errors
(warning + debug) and unexpected exceptions (`logger.exception`, error
level) and re-raises everything; the outer handlers absorb the three
admission-skip exceptions at info level, then `except ignore_exc or ()`
absorbs whatever `isinstance`-matches the configured class (`none` models
`ignore_exc=None`, which catches nothing).  Returns the log records and the
exception propagated to the caller of `download`, if any. -/
def download_dispatch (ignore_exc : Option ExcClass) (outcome : Except ProcExc Unit) :
    List LogEvent × Option ProcExc :=
  match outcome with
  | .ok _ => ([.infoFinishedSuccessfully], none)
  | .error e =>
      let inner : List LogEvent :=
        match e with
        | .alreadyFinishedError => []
        | .alreadyProcessingError => []
        | .temporaryResourceError _ => []
        | .resourceError => [.warningResourceError, .debugResourceErrorDetail]
        | .otherException => [.errorUnexpected]
      let ignored : Bool :=
        match ignore_exc with
        | some c => isinstance e c
        | none => false
      match e with
      | .alreadyFinishedError => (inner ++ [.infoAlreadyFinished], none)
      | .alreadyProcessingError => (inner ++ [.infoAlreadyDownloading], none)
      | .temporaryResourceError _ => (inner ++ [.infoTemporaryUnavailable], none)
      | .resourceError => if ignored then (inner, none) else (inner, some e)
      | .otherException => if ignored then (inner, none) else (inner, some e)

/-- Default of the `ignore_exc` keyword of `download`: the `ResourceError`
class. -/
def defaultIgnoreExc : Option ExcClass := some .resourceError

/-- One iteration of `download` for one request: run `_process_request`,
then dispatch its outcome. -/
def download_one (ignore_exc : Option ExcClass) (status : Status) (now : Datetime)
    (exec : ExecResult) : ProcResult × List LogEvent × Option ProcExc :=
  let r := process_request status now exec
  let d := download_dispatch ignore_exc r.outcome
  (r, d.1, d.2)

/-- A raised Python `ValueError`, by message. -/
inductive PyError where
  | valueError (msg : String)
deriving DecidableEq, Repr

/-- `TemporaryResourceError.__init__` (lines 21-26): the stored deadline is
`try_again_later or utcnow()` (a datetime is always truthy, so `none` falls
back to `now`); raises `ValueError` when it carries no `tzinfo`. -/
def mkTemporaryResourceError (now : Datetime) (try_again_later : Option Datetime) :
    Except PyError Datetime :=
  let w := try_again_later.getD now
  if w.tz then .ok w else .error (.valueError "no timezone")

/-- `PartiallyCompleted.__init__` (lines 33-38): identical validation. -/
def mkPartiallyCompleted (now : Datetime) (try_again_later : Option Datetime) :
    Except PyError Datetime :=
  let w := try_again_later.getD now
  if w.tz then .ok w else .error (.valueError "no timezone")

/-! Helper lemmas shared by the claim theorems. -/

/-- The store written by the resolution phase always has `processing = false`. -/
theorem execute_store_processing (s : Status) (e : ExecResult) :
    (execute s e).store.processing = false := by
  cases e <;> rfl

/-- When admission succeeds, `_process_request` runs the execution and
resolution phases. -/
theorem process_request_of_admission_none (s : Status) (now : Datetime) (e : ExecResult)
    (h : admission s now = none) : process_request s now e = execute s e := by
  simp [process_request, h]

/-- When admission raises, `_process_request` propagates that exception with
no invocation and no write. -/
theorem process_request_of_admission_some (s : Status) (now : Datetime) (e : ExecResult)
    (x : ProcExc) (h : admission s now = some x) :
    process_request s now e =
      { outcome := .error x, store := s, saves := [], invoked := false } := by
  simp [process_request, h]

/-- C1: for every request admitted to execution (the Work Executor is invoked),
whatever the execution outcome — normal return, `PartiallyCompleted`,
`TemporaryResourceError`, any other `ResourceError`, or any other exception —
the status persisted by the resolution phase has `processing = false` by the
time `_process_request` returns or raises. -/
theorem C1_cleanup_invariant (s : Status) (now : Datetime) (e : ExecResult)
    (h : (process_request s now e).invoked = true) :
    (process_request s now e).store.processing = false := by
  cases ha : admission s now with
  | some x =>
      rw [process_request_of_admission_some s now e x ha] at h
      simp at h
  | none =>
      rw [process_request_of_admission_none s now e ha] at h ⊢
      exact execute_store_processing s e

/-- Concrete instantiation of `C1_cleanup_invariant`. -/
theorem C1_cleanup_invariant_witness :
    (process_request Status.empty ⟨0, true⟩ .success).invoked = true ∧
    (process_request Status.empty ⟨0, true⟩ .success).store.processing = false :=
  ⟨by decide, C1_cleanup_invariant Status.empty ⟨0, true⟩ .success (by decide)⟩

/-- C2: a loaded status with `finished = true` (and `processing = false`) makes
every `process` call raise `AlreadyFinishedError` without invoking the Work
Executor and without any status write; the store is unchanged, so repeated
calls behave identically. -/
theorem C2_already_finished_idempotent (s : Status) (now now2 : Datetime)
    (e e2 : ExecResult) (hf : s.finished = true) (hp : s.processing = false) :
    (process_request s now e).outcome = .error .alreadyFinishedError ∧
    (process_request s now e).invoked = false ∧
    (process_request s now e).saves = [] ∧
    (process_request s now e).store = s ∧
    process_request (process_request s now e).store now2 e2 =
      process_request s now2 e2 := by
  have ha : admission s now = some .alreadyFinishedError := by
    simp [admission, hf, hp]
  rw [process_request_of_admission_some s now e _ ha]
  exact ⟨rfl, rfl, rfl, rfl, rfl⟩

/-- Concrete instantiation of `C2_already_finished_idempotent`. -/
theorem C2_already_finished_idempotent_witness :
    (process_request
      { processing := false, finished := true, failed := false, waiting_until := none }
      ⟨0, true⟩ .success).outcome = .error .alreadyFinishedError :=
  (C2_already_finished_idempotent
    { processing := false, finished := true, failed := false, waiting_until := none }
    ⟨0, true⟩ ⟨0, true⟩ .success .success rfl rfl).1

/-- C3: with `processing = false`, `finished = false` and a `waiting_until`
strictly later than `utcnow()` truncated to whole seconds plus the 1-second
grace buffer, `process` raises `TemporaryResourceError` carrying that
`waiting_until`, does not invoke the Work Executor and performs no status
write; once `waiting_until` is no longer beyond that boundary, the call
proceeds to execution. -/
theorem C3_retry_deadline (s : Status) (now : Datetime) (e : ExecResult) (w : Datetime)
    (hp : s.processing = false) (hf : s.finished = false)
    (hw : s.waiting_until = some w) :
    (Datetime.lt (now.truncMicrosecond.addSeconds 1) w = true →
      (process_request s now e).outcome = .error (.temporaryResourceError w) ∧
      (process_request s now e).invoked = false ∧
      (process_request s now e).saves = [] ∧
      (process_request s now e).store = s) ∧
    (Datetime.lt (now.truncMicrosecond.addSeconds 1) w = false →
      (process_request s now e).invoked = true) := by
  constructor
  · intro hlt
    have ha : admission s now = some (.temporaryResourceError w) := by
      simp [admission, hp, hf, hw, hlt]
    rw [process_request_of_admission_some s now e _ ha]
    exact ⟨rfl, rfl, rfl, rfl⟩
  · intro hge
    have ha : admission s now = none := by
      simp [admission, hp, hf, hw, hge]
    rw [process_request_of_admission_none s now e ha]
    rfl

/-- Concrete instantiation of `C3_retry_deadline`: deadline 10 seconds past the
epoch, current time at the epoch. -/
theorem C3_retry_deadline_witness :
    (process_request
      { processing := false, finished := false, failed := false,
        waiting_until := some ⟨10000000, true⟩ }
      ⟨0, true⟩ .success).outcome =
      .error (.temporaryResourceError ⟨10000000, true⟩) :=
  ((C3_retry_deadline
    { processing := false, finished := false, failed := false,
      waiting_until := some ⟨10000000, true⟩ }
    ⟨0, true⟩ .success ⟨10000000, true⟩ rfl rfl rfl).1 (by decide)).1

/-- C4: in `download`, a failure of the recognized resource-error kind is
logged as a warning-level summary plus debug-level detail and the exception is
re-raised to the caller exactly when its class is not matched by the
configured `ignore_exc`; the default configuration (the broad `ResourceError`
class) suppresses it after logging. -/
theorem C4_resource_error_dispatch (cfg : Option ExcClass) :
    (download_dispatch cfg (.error .resourceError)).1 =
      [.warningResourceError, .debugResourceErrorDetail] ∧
    ((download_dispatch cfg (.error .resourceError)).2 = none ↔
      ∃ c, cfg = some c ∧ isinstance .resourceError c = true) ∧
    download_dispatch defaultIgnoreExc (.error .resourceError) =
      ([.warningResourceError, .debugResourceErrorDetail], none) := by
  refine ⟨?_, ?_, rfl⟩ <;>
    cases cfg with
    | none => simp [download_dispatch]
    | some c => cases hc : isinstance .resourceError c <;> simp [download_dispatch, hc]

/-- C5: after successful admission, a `PartiallyCompleted` signal with deadline
`T` yields a final persisted status with `finished = false`, `failed = false`,
`waiting_until = T` and `processing = false`; `_process_request` returns
normally and the Batch Driver logs a success, not an error, under every
configuration. -/
theorem C5_partial_completion (s : Status) (now T : Datetime) (cfg : Option ExcClass)
    (h : admission s now = none) :
    (process_request s now (.partiallyCompleted T)).store.finished = false ∧
    (process_request s now (.partiallyCompleted T)).store.failed = false ∧
    (process_request s now (.partiallyCompleted T)).store.waiting_until = some T ∧
    (process_request s now (.partiallyCompleted T)).store.processing = false ∧
    (process_request s now (.partiallyCompleted T)).outcome = .ok () ∧
    download_dispatch cfg (process_request s now (.partiallyCompleted T)).outcome =
      ([.infoFinishedSuccessfully], none) := by
  rw [process_request_of_admission_none s now _ h]
  exact ⟨rfl, rfl, rfl, rfl, rfl, rfl⟩

/-- Concrete instantiation of `C5_partial_completion`. -/
theorem C5_partial_completion_witness :
    (process_request Status.empty ⟨0, true⟩ (.partiallyCompleted ⟨5, true⟩)).store.finished
      = false ∧
    (process_request Status.empty ⟨0, true⟩
      (.partiallyCompleted ⟨5, true⟩)).store.waiting_until = some ⟨5, true⟩ :=
  have h := C5_partial_completion Status.empty ⟨0, true⟩ ⟨5, true⟩ none (by decide)
  ⟨h.1, h.2.2.1⟩

/-- C6: after successful admission, `TemporaryResourceError` with deadline `T`
leaves `failed = true`, `waiting_until = T` and `finished` not set to true, and
is re-raised; a general `ResourceError` leaves `finished = true` and
`failed = true` and propagates to the caller of `process`. -/
theorem C6_resource_error_resolution (s : Status) (now T : Datetime)
    (h : admission s now = none) :
    ((process_request s now (.temporaryResourceError T)).store.failed = true ∧
     (process_request s now (.temporaryResourceError T)).store.waiting_until = some T ∧
     (process_request s now (.temporaryResourceError T)).store.finished = false ∧
     (process_request s now (.temporaryResourceError T)).outcome =
       .error (.temporaryResourceError T)) ∧
    ((process_request s now .resourceError).store.finished = true ∧
     (process_request s now .resourceError).store.failed = true ∧
     (process_request s now .resourceError).outcome = .error .resourceError) := by
  rw [process_request_of_admission_none s now (.temporaryResourceError T) h,
      process_request_of_admission_none s now .resourceError h]
  exact ⟨⟨rfl, rfl, rfl, rfl⟩, rfl, rfl, rfl⟩

/-- Concrete instantiation of `C6_resource_error_resolution`. -/
theorem C6_resource_error_resolution_witness :
    (process_request Status.empty ⟨0, true⟩ .resourceError).store.finished = true ∧
    (process_request Status.empty ⟨0, true⟩ .resourceError).store.failed = true :=
  have h := C6_resource_error_resolution Status.empty ⟨0, true⟩ ⟨5, true⟩ (by decide)
  ⟨h.2.1, h.2.2.1⟩

/-- Dispatch of an unrecognized exception by `download`: error-level trace, and
it is swallowed exactly when the configured `ignore_exc` class matches it. -/
theorem download_dispatch_other (cfg : Option ExcClass) :
    (download_dispatch cfg (.error .otherException)).1 = [.errorUnexpected] ∧
    ((download_dispatch cfg (.error .otherException)).2 = none ↔
      ∃ c, cfg = some c ∧ isinstance .otherException c = true) := by
  cases cfg with
  | none => simp [download_dispatch]
  | some c => cases hc : isinstance .otherException c <;> simp [download_dispatch, hc]

/-- C7 counterexample: with `ignore_exc = Exception` (a legal argument of
`download`), an unexpected executor exception after successful admission is
marked `failed = true` and logged at error level, but `except ignore_exc`
matches it, so `download` swallows it instead of re-raising — refuting the
claim that it is never suppressed regardless of the `ignore_exc`
configuration. -/
theorem C7_counterexample :
    admission Status.empty ⟨0, true⟩ = none ∧
    (download_one (some .exception) Status.empty ⟨0, true⟩
      .otherException).1.store.failed = true ∧
    (download_one (some .exception) Status.empty ⟨0, true⟩
      .otherException).2.1 = [.errorUnexpected] ∧
    (download_one (some .exception) Status.empty ⟨0, true⟩
      .otherException).2.2 = none := by
  decide

/-- C7 (amended): after successful admission, an exception other than the
recognized signals leaves `failed = true` with `finished` unchanged (still
false), is re-raised by the Task Runner, and the Batch Driver logs it at
highest severity and re-raises it unless the configured `ignore_exc` class
matches it; the default configuration (`ResourceError`) never matches it, so
by default it always propagates. -/
theorem C7_unexpected_exception (s : Status) (now : Datetime) (cfg : Option ExcClass)
    (h : admission s now = none) :
    (process_request s now .otherException).store.failed = true ∧
    (process_request s now .otherException).store.finished = false ∧
    (process_request s now .otherException).outcome = .error .otherException ∧
    (download_dispatch cfg (process_request s now .otherException).outcome).1 =
      [.errorUnexpected] ∧
    ((download_dispatch cfg (process_request s now .otherException).outcome).2 = none ↔
      ∃ c, cfg = some c ∧ isinstance .otherException c = true) ∧
    (download_dispatch defaultIgnoreExc
      (process_request s now .otherException).outcome).2 = some .otherException := by
  rw [process_request_of_admission_none s now .otherException h]
  have ho : (execute s .otherException).outcome = .error .otherException := rfl
  rw [ho]
  exact ⟨rfl, rfl, rfl, (download_dispatch_other cfg).1,
    (download_dispatch_other cfg).2, rfl⟩

/-- Concrete instantiation of `C7_unexpected_exception`. -/
theorem C7_unexpected_exception_witness :
    (process_request Status.empty ⟨0, true⟩ .otherException).store.failed = true ∧
    (download_dispatch defaultIgnoreExc
      (process_request Status.empty ⟨0, true⟩ .otherException).outcome).2 =
      some .otherException :=
  have h := C7_unexpected_exception Status.empty ⟨0, true⟩ none (by decide)
  ⟨h.1, h.2.2.2.2.2⟩

/-- C8: a loaded status with `processing = true` at admission makes `process`
signal `AlreadyProcessingError` without invoking the Work Executor and without
any status write. -/
theorem C8_mutual_exclusion (s : Status) (now : Datetime) (e : ExecResult)
    (hp : s.processing = true) :
    (process_request s now e).outcome = .error .alreadyProcessingError ∧
    (process_request s now e).invoked = false ∧
    (process_request s now e).saves = [] ∧
    (process_request s now e).store = s := by
  have ha : admission s now = some .alreadyProcessingError := by
    simp [admission, hp]
  rw [process_request_of_admission_some s now e _ ha]
  exact ⟨rfl, rfl, rfl, rfl⟩

/-- Concrete instantiation of `C8_mutual_exclusion`. -/
theorem C8_mutual_exclusion_witness :
    (process_request
      { processing := true, finished := false, failed := false, waiting_until := none }
      ⟨0, true⟩ .success).outcome = .error .alreadyProcessingError :=
  (C8_mutual_exclusion
    { processing := true, finished := false, failed := false, waiting_until := none }
    ⟨0, true⟩ .success rfl).1

/-- C9: constructing `TemporaryResourceError` or `PartiallyCompleted` with a
timezone-naive deadline raises `ValueError` immediately in the constructor
(before any status mutation can occur). -/
theorem C9_timezone_contract (now d : Datetime) (h : d.tz = false) :
    mkTemporaryResourceError now (some d) = .error (.valueError "no timezone") ∧
    mkPartiallyCompleted now (some d) = .error (.valueError "no timezone") := by
  simp [mkTemporaryResourceError, mkPartiallyCompleted, h]

/-- Concrete instantiation of `C9_timezone_contract`. -/
theorem C9_timezone_contract_witness :
    mkTemporaryResourceError ⟨0, true⟩ (some ⟨0, false⟩) =
      .error (.valueError "no timezone") :=
  (C9_timezone_contract ⟨0, true⟩ ⟨0, false⟩ rfl).1

/-- C10: no status record ever saved by `_process_request` has
`processing = true` and `finished = true` simultaneously: the admission-phase
save sets `processing = true` together with `finished = false`, and the
resolution-phase save sets `processing = false`. -/
theorem C10_saved_records_consistent (s : Status) (now : Datetime) (e : ExecResult)
    (r : Status) (hr : r ∈ (process_request s now e).saves) :
    ¬(r.processing = true ∧ r.finished = true) := by
  cases ha : admission s now with
  | some x =>
      rw [process_request_of_admission_some s now e x ha] at hr
      simp at hr
  | none =>
      rw [process_request_of_admission_none s now e ha] at hr
      cases e <;>
        · simp [execute, resolve] at hr
          rcases hr with rfl | rfl <;> simp

/-- Concrete instantiation of `C10_saved_records_consistent` at the
admission-phase record of a successful run. -/
theorem C10_saved_records_consistent_witness :
    ({ processing := true, finished := false, failed := false,
       waiting_until := none : Status } ∈
      (process_request Status.empty ⟨0, true⟩ .success).saves) ∧
    ¬(({ processing := true, finished := false, failed := false,
         waiting_until := none : Status }).processing = true ∧
      ({ processing := true, finished := false, failed := false,
         waiting_until := none : Status }).finished = true) :=
  ⟨by decide,
   C10_saved_records_consistent Status.empty ⟨0, true⟩ .success
     { processing := true, finished := false, failed := false, waiting_until := none }
     (by decide)⟩

end Freefall
